import Mathlib

/-!
Shallow embedding of the floor-plan layout logic of
`draw_detailed_floor_plan` in `civil_home_planner.py` (lines 251-487).

Matplotlib `add_patch` and `text` calls are modelled as an ordered list of
primitives; colors, line widths, font sizes and alpha values are
display-only and omitted.  Coordinates are real numbers and `np.sqrt` is
modelled by `Real.sqrt`.  About `bedrooms = 0`: at line 371 the dividend
`height - main_height` is normally an `np.float64`, so the division by
the integer 0 only emits a RuntimeWarning and yields `inf`, the loop
`range(0)` is empty, and a complete figure is still returned.  Only when
the width guard of line 261 has fallen back (the real model reaches that
branch exactly for `area <= 0`, since the square root of a nonpositive
argument is 0 here) is `height` a plain Python number, and the division
then raises a genuine `ZeroDivisionError`, discarding the figure; this is
modelled by an `Except` result.  (In the source a strictly negative area
actually yields NaN `np.float64` geometry - NaN is not representable over
the reals - which again only warns.)
-/

/-- Left edge of the footprint (`start_x = 10` in the source). -/
noncomputable def startX : ℝ := 10

/-- Bottom edge of the footprint (`start_y = 10` in the source). -/
noncomputable def startY : ℝ := 10

/-- Source lines 260-261:
`width = np.sqrt(area / 100) * 12` and
`height = area / width if width > 0 else 12`. -/
noncomputable def footprintRaw (area : ℝ) : ℝ × ℝ :=
  let w := Real.sqrt (area / 100) * 12
  (w, if 0 < w then area / w else 12)

/-- Source lines 263-266: `scale = 100 / max(width, height)` and both
dimensions multiplied by `scale`. -/
noncomputable def footprint (area : ℝ) : ℝ × ℝ :=
  let p := footprintRaw area
  let scale := 100 / max p.1 p.2
  (p.1 * scale, p.2 * scale)

/-- Role of a primitive in the scene: the outer envelope, a room (zone)
rectangle, a furniture or fixture patch, a door, a window, or a text
label. -/
inductive PrimKind
  | footprintWall
  | zone
  | fixture
  | door
  | window
  | label
deriving DecidableEq

/-- Kind of a room: living room, kitchen, the k-th bedroom or the k-th
bathroom (k counted from 0, the order the source loops emit them). -/
inductive ZoneKind
  | living
  | kitchen
  | bedroom (k : ℕ)
  | bathroom (k : ℕ)
deriving DecidableEq

/-- An axis-aligned rectangle given by its lower-left corner and size,
matching matplotlib `Rectangle((x, y), w, h)`. -/
structure Rect where
  x : ℝ
  y : ℝ
  w : ℝ
  h : ℝ

/-- Geometry of a primitive: a rectangle patch, a circle patch, or a text
anchor with its content. -/
inductive Shape
  | rect (r : Rect)
  | circle (cx cy radius : ℝ)
  | text (x y : ℝ) (content : String)

/-- A scene primitive: its kind, the zone it belongs to (none for the
envelope, openings and the global labels), and its geometry. -/
structure Prim where
  kind : PrimKind
  owner : Option ZoneKind
  shape : Shape

/-- Bounding box of a shape: rectangles are themselves, circles give
their circumscribed square, text anchors are degenerate points. -/
noncomputable def Shape.bounds : Shape → Rect
  | .rect r => r
  | .circle cx cy radius => ⟨cx - radius, cy - radius, 2 * radius, 2 * radius⟩
  | .text x y _ => ⟨x, y, 0, 0⟩

/-- Containment of `inner` inside `outer` (componentwise intervals). -/
def Rect.within (inner outer : Rect) : Prop :=
  outer.x ≤ inner.x ∧ inner.x + inner.w ≤ outer.x + outer.w ∧
    outer.y ≤ inner.y ∧ inner.h + inner.y ≤ outer.y + outer.h

/-- Source line 277: `main_height = height / 2.5`. -/
noncomputable def mainHeight (h : ℝ) : ℝ := h / 2.5

/-- Source line 278: `hall_width = width / 2`. -/
noncomputable def hallWidth (w : ℝ) : ℝ := w / 2

/-- Source line 279: `kitchen_width = width / 4` (computed but unused by
the source afterwards). -/
noncomputable def kitchenWidth (w : ℝ) : ℝ := w / 4

/-- Vertical line separating the top band holding Living and Kitchen
from the bedroom/bathroom area below: `start_y + height - main_height`. -/
noncomputable def serviceBandY (h : ℝ) : ℝ := startY + h - mainHeight h

/-- Living room rectangle (lines 282-283). -/
noncomputable def livingRect (w h : ℝ) : Rect :=
  ⟨startX + 1, startY + h - mainHeight h - 1, hallWidth w - 2, mainHeight h - 2⟩

/-- Kitchen rectangle (lines 326-327). -/
noncomputable def kitchenRect (w h : ℝ) : Rect :=
  ⟨startX + hallWidth w + 1, startY + h - mainHeight h - 1,
    w - hallWidth w - 2, mainHeight h - 2⟩

/-- Source line 371: `bedroom_height = (height - main_height) / bedrooms`. -/
noncomputable def bedroomHeight (n : ℕ) (h : ℝ) : ℝ :=
  (h - mainHeight h) / n

/-- Source line 374:
`bed_y = start_y + (bedrooms - bed_num - 1) * bedroom_height`. -/
noncomputable def bedroomY (n k : ℕ) (h : ℝ) : ℝ :=
  startY + ((n - k - 1 : ℕ) : ℝ) * bedroomHeight n h

/-- Bedroom rectangle of the k-th bedroom (line 377). -/
noncomputable def bedroomRect (n k : ℕ) (w h : ℝ) : Rect :=
  ⟨startX + 1, bedroomY n k h + 1, hallWidth w - 2, bedroomHeight n h - 2⟩

/-- Source line 404: the quantity `bath_y_start`. -/
noncomputable def bathYStart (b : ℕ) (h : ℝ) : ℝ :=
  startY + h - mainHeight h - (h - mainHeight h) / ((b : ℝ) + 1)

/-- Source line 405:
`bath_height = (height - main_height) / (bathrooms + 1.5)`. -/
noncomputable def bathHeight (b : ℕ) (h : ℝ) : ℝ :=
  (h - mainHeight h) / ((b : ℝ) + 1.5)

/-- Source line 408: `bath_y = bath_y_start - bath_num * bath_height`. -/
noncomputable def bathY (b k : ℕ) (h : ℝ) : ℝ :=
  bathYStart b h - (k : ℝ) * bathHeight b h

/-- Bathroom rectangle of the k-th bathroom (lines 411-412). -/
noncomputable def bathroomRect (b k : ℕ) (w h : ℝ) : Rect :=
  ⟨startX + hallWidth w + 1, bathY b k h + 1,
    w - hallWidth w - 2, bathHeight b h - 2⟩

/-- The rectangle of a zone of the given kind, for a layout with `n`
bedrooms and `b` bathrooms on a `w × h` footprint. -/
noncomputable def zoneRectOf (n b : ℕ) (w h : ℝ) : ZoneKind → Rect
  | .living => livingRect w h
  | .kitchen => kitchenRect w h
  | .bedroom k => bedroomRect n k w h
  | .bathroom k => bathroomRect b k w h

/-- The outer wall envelope (lines 271-272). -/
noncomputable def outerWallPrim (w h : ℝ) : Prim :=
  ⟨.footprintWall, none, .rect ⟨startX, startY, w, h⟩⟩

/-- Living room zone, furniture and labels, in source emission order
(lines 282-323): zone rectangle, sofa, coffee table, TV unit, dining
table, the four chairs at offsets (1,0), (-1,0), (0,1.5), (0,-1.5), and
the room title. -/
noncomputable def livingBlock (w h : ℝ) : List Prim :=
  [⟨.zone, some .living, .rect (livingRect w h)⟩,
   ⟨.fixture, some .living, .rect ⟨startX + 3, startY + h - mainHeight h + 2, 8, 3⟩⟩,
   ⟨.label, some .living, .text (startX + 7) (startY + h - mainHeight h + 3.5) ("SOFA")⟩,
   ⟨.fixture, some .living, .rect ⟨startX + 3, startY + h - mainHeight h + 6, 8, 2⟩⟩,
   ⟨.label, some .living, .text (startX + 7) (startY + h - mainHeight h + 7) ("TABLE")⟩,
   ⟨.fixture, some .living, .rect ⟨startX + 3, startY + h - mainHeight h + 9, 8, 2.5⟩⟩,
   ⟨.label, some .living, .text (startX + 7) (startY + h - mainHeight h + 10.2) ("TV UNIT")⟩,
   ⟨.fixture, some .living, .rect ⟨startX + 12, startY + h - mainHeight h + 3, 6, 5⟩⟩,
   ⟨.label, some .living, .text (startX + 15) (startY + h - mainHeight h + 5.5) ("DINING")⟩,
   ⟨.fixture, some .living, .rect ⟨startX + 15 + 1 * 1.5, startY + h - mainHeight h + 5.5 + 0 * 1.5, 1, 1⟩⟩,
   ⟨.fixture, some .living, .rect ⟨startX + 15 + (-1) * 1.5, startY + h - mainHeight h + 5.5 + 0 * 1.5, 1, 1⟩⟩,
   ⟨.fixture, some .living, .rect ⟨startX + 15 + 0 * 1.5, startY + h - mainHeight h + 5.5 + 1.5 * 1.5, 1, 1⟩⟩,
   ⟨.fixture, some .living, .rect ⟨startX + 15 + 0 * 1.5, startY + h - mainHeight h + 5.5 + (-1.5) * 1.5, 1, 1⟩⟩,
   ⟨.label, some .living, .text (startX + hallWidth w / 2) (startY + h - 2) ("LIVING ROOM / HALL")⟩]

/-- Kitchen zone, appliances and labels, in source emission order
(lines 326-368): zone rectangle, stove, its four burners in a 2 by 2
grid, fridge, counter, sink, the two storage cabinets, and the room
title. -/
noncomputable def kitchenBlock (w h : ℝ) : List Prim :=
  [⟨.zone, some .kitchen, .rect (kitchenRect w h)⟩,
   ⟨.fixture, some .kitchen, .rect ⟨startX + hallWidth w + 3, startY + h - mainHeight h + 2, 3, 3⟩⟩,
   ⟨.fixture, some .kitchen, .circle (startX + hallWidth w + 3.75 + 0 * 1.5) (startY + h - mainHeight h + 2.75 + 0 * 1.5) 0.4⟩,
   ⟨.fixture, some .kitchen, .circle (startX + hallWidth w + 3.75 + 1 * 1.5) (startY + h - mainHeight h + 2.75 + 0 * 1.5) 0.4⟩,
   ⟨.fixture, some .kitchen, .circle (startX + hallWidth w + 3.75 + 0 * 1.5) (startY + h - mainHeight h + 2.75 + 1 * 1.5) 0.4⟩,
   ⟨.fixture, some .kitchen, .circle (startX + hallWidth w + 3.75 + 1 * 1.5) (startY + h - mainHeight h + 2.75 + 1 * 1.5) 0.4⟩,
   ⟨.label, some .kitchen, .text (startX + hallWidth w + 4.5) (startY + h - mainHeight h + 5.5) ("STOVE")⟩,
   ⟨.fixture, some .kitchen, .rect ⟨startX + hallWidth w + 7, startY + h - mainHeight h + 2, 3, 3⟩⟩,
   ⟨.label, some .kitchen, .text (startX + hallWidth w + 8.5) (startY + h - mainHeight h + 3.5) ("FRIDGE")⟩,
   ⟨.fixture, some .kitchen, .rect ⟨startX + hallWidth w + 11, startY + h - mainHeight h + 2, 4, 3⟩⟩,
   ⟨.fixture, some .kitchen, .rect ⟨startX + hallWidth w + 12, startY + h - mainHeight h + 2.5, 2, 1.5⟩⟩,
   ⟨.label, some .kitchen, .text (startX + hallWidth w + 13) (startY + h - mainHeight h + 3.2) ("SINK")⟩,
   ⟨.fixture, some .kitchen, .rect ⟨startX + hallWidth w + 3 + 0 * 4.5, startY + h - mainHeight h + 5.5, 3, 2⟩⟩,
   ⟨.fixture, some .kitchen, .rect ⟨startX + hallWidth w + 3 + 1 * 4.5, startY + h - mainHeight h + 5.5, 3, 2⟩⟩,
   ⟨.label, some .kitchen, .text (startX + hallWidth w + w / 4) (startY + h - 2) ("KITCHEN")⟩]

/-- The k-th bedroom: zone rectangle, bed, wardrobe, a desk only in
bedroom 0 (the master-bedroom bias of line 396), and labels, in source
emission order (lines 373-402). -/
noncomputable def bedroomBlock (n k : ℕ) (w h : ℝ) : List Prim :=
  [⟨.zone, some (.bedroom k), .rect (bedroomRect n k w h)⟩,
   ⟨.fixture, some (.bedroom k), .rect ⟨startX + 3, bedroomY n k h + 3, 6, 4⟩⟩,
   ⟨.label, some (.bedroom k), .text (startX + 6) (bedroomY n k h + 5) ("BED " ++ toString (k + 1))⟩,
   ⟨.fixture, some (.bedroom k), .rect ⟨startX + 10, bedroomY n k h + 3, 3, 4⟩⟩,
   ⟨.label, some (.bedroom k), .text (startX + 11.5) (bedroomY n k h + 5) ("W")⟩] ++
  (if k = 0 then
    [⟨.fixture, some (.bedroom k), .rect ⟨startX + 14, bedroomY n k h + 3, 3, 2⟩⟩,
     ⟨.label, some (.bedroom k), .text (startX + 15.5) (bedroomY n k h + 4) ("DESK")⟩]
   else []) ++
  [⟨.label, some (.bedroom k), .text (startX + hallWidth w / 2) (bedroomY n k h + bedroomHeight n h - 1) ("BEDROOM " ++ toString (k + 1))⟩]

/-- The k-th bathroom: zone rectangle, bathtub, toilet (circle), sink and
labels, in source emission order (lines 408-439). -/
noncomputable def bathroomBlock (b k : ℕ) (w h : ℝ) : List Prim :=
  [⟨.zone, some (.bathroom k), .rect (bathroomRect b k w h)⟩,
   ⟨.fixture, some (.bathroom k), .rect ⟨startX + hallWidth w + 3, bathY b k h + 2, 4, 2.5⟩⟩,
   ⟨.label, some (.bathroom k), .text (startX + hallWidth w + 5) (bathY b k h + 3.2) ("TUB")⟩,
   ⟨.fixture, some (.bathroom k), .circle (startX + hallWidth w + 9) (bathY b k h + 3) 0.8⟩,
   ⟨.label, some (.bathroom k), .text (startX + hallWidth w + 9) (bathY b k h + 3) ("T")⟩,
   ⟨.fixture, some (.bathroom k), .rect ⟨startX + hallWidth w + 11, bathY b k h + 2, 3, 2⟩⟩,
   ⟨.label, some (.bathroom k), .text (startX + hallWidth w + 12.5) (bathY b k h + 3) ("SINK")⟩,
   ⟨.label, some (.bathroom k), .text (startX + hallWidth w + (w - hallWidth w) / 2) (bathY b k h + bathHeight b h - 0.5) ("BATHROOM " ++ toString (k + 1))⟩]

/-- The six window anchor positions of lines 449-456: two on the left
wall, two on the right wall, two on the front wall. -/
noncomputable def windowPositions (w : ℝ) : List (ℝ × ℝ) :=
  [(startX - 0.2, startY + 15),
   (startX - 0.2, startY + 35),
   (startX + w + 0.2, startY + 15),
   (startX + w + 0.2, startY + 35),
   (startX + 20, startY - 0.2),
   (startX + 40, startY - 0.2)]

/-- Doors, windows and the closing global labels, in source emission
order (lines 441-476): entry door, its label, then
`window_positions[:min(4, 6)]` rendered as small squares — the slice
keeps only the first four positions, dropping both front-wall windows —
then the title, the measurement summary, the scale bar and the legend.
The float formatting of the summary string is not modelled. -/
noncomputable def tailBlock (w : ℝ) (style : String) : List Prim :=
  [⟨.door, none, .rect ⟨startX + hallWidth w - 1, startY, 2, 0.5⟩⟩,
   ⟨.label, none, .text (startX + hallWidth w - 0.5) (startY - 1) ("MAIN DOOR")⟩] ++
  ((windowPositions w).take (min 4 6)).map (fun q =>
    ⟨.window, none, .rect ⟨q.1 - 0.3, q.2 - 0.3, 0.6, 0.6⟩⟩) ++
  [⟨.label, none, .text 70 115 (style.toUpper ++ " HOME - COMPLETE FLOOR PLAN")⟩,
   ⟨.label, none, .text 70 4 ("TOTAL AREA, DIMENSIONS AND ROOM COUNTS")⟩,
   ⟨.label, none, .text 10 4 ("SCALE BAR")⟩,
   ⟨.label, none, .text 10 1 ("LEGEND")⟩]

/-- The full ordered scene for a `w × h` footprint: outer wall, living
room block, kitchen block, one block per bedroom, one block per bathroom,
then openings and global labels. -/
noncomputable def sceneOf (n b : ℕ) (w h : ℝ) (style : String) : List Prim :=
  outerWallPrim w h ::
    (livingBlock w h ++ kitchenBlock w h ++
      (List.range n).flatMap (fun k => bedroomBlock n k w h) ++
      (List.range b).flatMap (fun k => bathroomBlock b k w h) ++
      tailBlock w style)

/-- The only failure the source can hit in this routine: the Python
`ZeroDivisionError` raised at line 371 when `bedrooms = 0` and the
guarded fallback height (a plain Python number rather than an
`np.float64`) is divided by zero. -/
inductive RunError
  | zeroDivisionError
deriving DecidableEq

/-- The whole of `draw_detailed_floor_plan` as a scene builder: compute
the footprint from the area, then emit every patch and text in source
order.  There is no input validation anywhere in the routine.  With
`bedrooms = 0` and a positive area the bedroom-height division is NumPy
float division by zero, which only warns and yields an unused `inf`; the
bedroom loop is skipped and a complete figure is still produced.  The
division raises a genuine `ZeroDivisionError` only on the fallback branch
of the width guard, reached in this real-valued model exactly when
`area <= 0` (the source instead NaN-poisons a strictly negative area and
also returns a figure; NaN has no real-number counterpart). -/
noncomputable def draw (n b : ℕ) (area : ℝ) (style : String) :
    Except RunError (List Prim) :=
  if n = 0 ∧ area ≤ 0 then .error .zeroDivisionError
  else .ok (sceneOf n b (footprint area).1 (footprint area).2 style)

/-- Does this primitive have the given kind? -/
def hasKind (c : PrimKind) (p : Prim) : Bool := decide (p.kind = c)

/-- Is this primitive the zone rectangle of the living room? -/
def isLivingZone (p : Prim) : Bool :=
  hasKind .zone p && decide (p.owner = some .living)

/-- Is this primitive the zone rectangle of the kitchen? -/
def isKitchenZone (p : Prim) : Bool :=
  hasKind .zone p && decide (p.owner = some .kitchen)

/-- Is this primitive the zone rectangle of some bedroom? -/
def isBedroomZone (p : Prim) : Bool :=
  hasKind .zone p &&
    (match p.owner with | some (.bedroom _) => true | _ => false)

/-- Is this primitive the zone rectangle of some bathroom? -/
def isBathroomZone (p : Prim) : Bool :=
  hasKind .zone p &&
    (match p.owner with | some (.bathroom _) => true | _ => false)

/-- Rank of a primitive kind in the global emission order the spec
claims: zones (and the envelope) first, then fixtures, then openings,
then text labels. -/
def orderRank : PrimKind → ℕ
  | .footprintWall => 0
  | .zone => 0
  | .fixture => 1
  | .door => 2
  | .window => 2
  | .label => 3

/-- Is this list of ranks weakly increasing? -/
def ranksMonotone : List ℕ → Bool
  | [] => true
  | [_] => true
  | a :: b :: t => decide (a ≤ b) && ranksMonotone (b :: t)

/-- For every positive area the scaled footprint is exactly
`(100, 625/9)`: the raw aspect ratio is the constant `36/25`, the width is
the larger dimension, and rescaling pins it to the canvas budget `100`. -/
lemma footprint_eq_of_pos (a : ℝ) (ha : 0 < a) :
    footprint a = (100, 625 / 9) := by
  have ha100 : (0 : ℝ) < a / 100 := by positivity
  have hs : 0 < Real.sqrt (a / 100) := Real.sqrt_pos.mpr ha100
  set w : ℝ := Real.sqrt (a / 100) * 12 with hw
  have hwpos : 0 < w := by positivity
  have hwsq : w * w = a * 144 / 100 := by
    have : Real.sqrt (a / 100) * Real.sqrt (a / 100) = a / 100 :=
      Real.mul_self_sqrt ha100.le
    calc w * w = Real.sqrt (a / 100) * Real.sqrt (a / 100) * 144 := by ring
    _ = a / 100 * 144 := by rw [this]
    _ = a * 144 / 100 := by ring
  have hraw : footprintRaw a = (w, a / w) := by
    simp only [footprintRaw, ← hw, if_pos hwpos]
  have hle : a / w ≤ w := by
    rw [div_le_iff₀ hwpos]
    nlinarith
  have hmax : max w (a / w) = w := max_eq_left hle
  have hwne : w ≠ 0 := ne_of_gt hwpos
  have hane : a ≠ 0 := ne_of_gt ha
  unfold footprint
  rw [hraw]
  simp only [hmax, Prod.mk.injEq]
  constructor
  · field_simp
  · field_simp
    nlinarith

/-- C4: for every positive area the footprint solver returns a positive
width and height whose larger value is exactly the canvas budget 100. -/
theorem c4_footprint_solver (a : ℝ) (ha : 0 < a) :
    0 < (footprint a).1 ∧ 0 < (footprint a).2 ∧
      max (footprint a).1 (footprint a).2 = 100 := by
  rw [footprint_eq_of_pos a ha]
  norm_num

/-- Witness for `c4_footprint_solver` at `area = 2000`. -/
theorem c4_footprint_solver_witness :
    (0 : ℝ) < 2000 ∧
      (0 < (footprint 2000).1 ∧ 0 < (footprint 2000).2 ∧
        max (footprint 2000).1 (footprint 2000).2 = 100) :=
  ⟨by norm_num, c4_footprint_solver 2000 (by norm_num)⟩

/-- C9: two positive areas give footprints with the same aspect ratio,
and the larger dimension equals the canvas budget 100 in both cases. -/
theorem c9_scale_invariance (a b : ℝ) (ha : 0 < a) (hb : 0 < b) :
    (footprint a).1 / (footprint a).2 = (footprint b).1 / (footprint b).2 ∧
      max (footprint a).1 (footprint a).2 = 100 ∧
      max (footprint b).1 (footprint b).2 = 100 := by
  rw [footprint_eq_of_pos a ha, footprint_eq_of_pos b hb]
  norm_num

/-- Witness for `c9_scale_invariance` at areas `800` and `2000`. -/
theorem c9_scale_invariance_witness :
    (0 : ℝ) < 800 ∧ (0 : ℝ) < 2000 ∧
      ((footprint 800).1 / (footprint 800).2 =
          (footprint 2000).1 / (footprint 2000).2 ∧
        max (footprint 800).1 (footprint 800).2 = 100 ∧
        max (footprint 2000).1 (footprint 2000).2 = 100) :=
  ⟨by norm_num, by norm_num,
    c9_scale_invariance 800 2000 (by norm_num) (by norm_num)⟩

/-- Counting over the concatenation of the per-index blocks of
`List.range m`, when every block contributes the same count. -/
lemma countP_flatMap_range (f : ℕ → List Prim) (pr : Prim → Bool) (c m : ℕ)
    (hf : ∀ k, (f k).countP pr = c) :
    ((List.range m).flatMap f).countP pr = m * c := by
  induction m with
  | zero => simp
  | succ m ih =>
      rw [List.range_succ, List.flatMap_append, List.countP_append, ih]
      simp [hf, Nat.succ_mul]

/-- Counting over the blocks of `List.range m` when block `0` contributes
`c₀` and every later block contributes `c`. -/
lemma countP_flatMap_range_master (f : ℕ → List Prim) (pr : Prim → Bool)
    (c₀ c m : ℕ) (h0 : (f 0).countP pr = c₀)
    (hf : ∀ k, (f (k + 1)).countP pr = c) (hm : 1 ≤ m) :
    ((List.range m).flatMap f).countP pr = c₀ + (m - 1) * c := by
  induction m with
  | zero => omega
  | succ m ih =>
      rcases Nat.eq_zero_or_pos m with rfl | hm'
      · rw [show List.range 1 = [0] from rfl]
        simpa using h0
      · rw [List.range_succ, List.flatMap_append, List.countP_append,
          ih hm']
        obtain ⟨m', rfl⟩ : ∃ m', m = m' + 1 := ⟨m - 1, by omega⟩
        simp [hf]
        ring

/-- Per-block zone counts: the living block holds exactly the living
zone rectangle. -/
lemma livingBlock_count_living (w h : ℝ) :
    (livingBlock w h).countP isLivingZone = 1 := rfl

lemma livingBlock_count_kitchen (w h : ℝ) :
    (livingBlock w h).countP isKitchenZone = 0 := rfl

lemma livingBlock_count_bedroom (w h : ℝ) :
    (livingBlock w h).countP isBedroomZone = 0 := rfl

lemma livingBlock_count_bathroom (w h : ℝ) :
    (livingBlock w h).countP isBathroomZone = 0 := rfl

lemma livingBlock_count_zone (w h : ℝ) :
    (livingBlock w h).countP (hasKind .zone) = 1 := rfl

lemma livingBlock_count_fixture (w h : ℝ) :
    (livingBlock w h).countP (hasKind .fixture) = 8 := rfl

lemma kitchenBlock_count_living (w h : ℝ) :
    (kitchenBlock w h).countP isLivingZone = 0 := rfl

lemma kitchenBlock_count_kitchen (w h : ℝ) :
    (kitchenBlock w h).countP isKitchenZone = 1 := rfl

lemma kitchenBlock_count_bedroom (w h : ℝ) :
    (kitchenBlock w h).countP isBedroomZone = 0 := rfl

lemma kitchenBlock_count_bathroom (w h : ℝ) :
    (kitchenBlock w h).countP isBathroomZone = 0 := rfl

lemma kitchenBlock_count_zone (w h : ℝ) :
    (kitchenBlock w h).countP (hasKind .zone) = 1 := rfl

lemma kitchenBlock_count_fixture (w h : ℝ) :
    (kitchenBlock w h).countP (hasKind .fixture) = 10 := rfl

lemma bedroomBlock_count_living (n k : ℕ) (w h : ℝ) :
    (bedroomBlock n k w h).countP isLivingZone = 0 := by
  cases k <;> rfl

lemma bedroomBlock_count_kitchen (n k : ℕ) (w h : ℝ) :
    (bedroomBlock n k w h).countP isKitchenZone = 0 := by
  cases k <;> rfl

lemma bedroomBlock_count_bedroom (n k : ℕ) (w h : ℝ) :
    (bedroomBlock n k w h).countP isBedroomZone = 1 := by
  cases k <;> rfl

lemma bedroomBlock_count_bathroom (n k : ℕ) (w h : ℝ) :
    (bedroomBlock n k w h).countP isBathroomZone = 0 := by
  cases k <;> rfl

lemma bedroomBlock_count_zone (n k : ℕ) (w h : ℝ) :
    (bedroomBlock n k w h).countP (hasKind .zone) = 1 := by
  cases k <;> rfl

lemma bathroomBlock_count_living (b k : ℕ) (w h : ℝ) :
    (bathroomBlock b k w h).countP isLivingZone = 0 := rfl

lemma bathroomBlock_count_kitchen (b k : ℕ) (w h : ℝ) :
    (bathroomBlock b k w h).countP isKitchenZone = 0 := rfl

lemma bathroomBlock_count_bedroom (b k : ℕ) (w h : ℝ) :
    (bathroomBlock b k w h).countP isBedroomZone = 0 := rfl

lemma bathroomBlock_count_bathroom (b k : ℕ) (w h : ℝ) :
    (bathroomBlock b k w h).countP isBathroomZone = 1 := rfl

lemma bathroomBlock_count_zone (b k : ℕ) (w h : ℝ) :
    (bathroomBlock b k w h).countP (hasKind .zone) = 1 := rfl

lemma bathroomBlock_count_fixture (b k : ℕ) (w h : ℝ) :
    (bathroomBlock b k w h).countP (hasKind .fixture) = 3 := rfl

lemma tailBlock_count_living (w : ℝ) (st : String) :
    (tailBlock w st).countP isLivingZone = 0 := rfl

lemma tailBlock_count_kitchen (w : ℝ) (st : String) :
    (tailBlock w st).countP isKitchenZone = 0 := rfl

lemma tailBlock_count_bedroom (w : ℝ) (st : String) :
    (tailBlock w st).countP isBedroomZone = 0 := rfl

lemma tailBlock_count_bathroom (w : ℝ) (st : String) :
    (tailBlock w st).countP isBathroomZone = 0 := rfl

lemma tailBlock_count_zone (w : ℝ) (st : String) :
    (tailBlock w st).countP (hasKind .zone) = 0 := rfl

lemma tailBlock_count_fixture (w : ℝ) (st : String) :
    (tailBlock w st).countP (hasKind .fixture) = 0 := rfl

/-- Bedroom 0 carries bed, wardrobe and desk; later bedrooms only bed
and wardrobe. -/
lemma bedroomBlock_count_fixture_zero (n : ℕ) (w h : ℝ) :
    (bedroomBlock n 0 w h).countP (hasKind .fixture) = 3 := rfl

lemma bedroomBlock_count_fixture_succ (n k : ℕ) (w h : ℝ) :
    (bedroomBlock n (k + 1) w h).countP (hasKind .fixture) = 2 := rfl

lemma livingBlock_count_door (w h : ℝ) :
    (livingBlock w h).countP (hasKind .door) = 0 := rfl

lemma kitchenBlock_count_door (w h : ℝ) :
    (kitchenBlock w h).countP (hasKind .door) = 0 := rfl

lemma bedroomBlock_count_door (n k : ℕ) (w h : ℝ) :
    (bedroomBlock n k w h).countP (hasKind .door) = 0 := by
  cases k <;> rfl

lemma bathroomBlock_count_door (b k : ℕ) (w h : ℝ) :
    (bathroomBlock b k w h).countP (hasKind .door) = 0 := rfl

lemma tailBlock_count_door (w : ℝ) (st : String) :
    (tailBlock w st).countP (hasKind .door) = 1 := rfl

lemma tailBlock_count_window (w : ℝ) (st : String) :
    (tailBlock w st).countP (hasKind .window) = 4 := rfl

/-- Filtering the windows out of each block. -/
lemma livingBlock_filter_window (w h : ℝ) :
    (livingBlock w h).filter (hasKind .window) = [] := rfl

lemma kitchenBlock_filter_window (w h : ℝ) :
    (kitchenBlock w h).filter (hasKind .window) = [] := rfl

lemma bedroomBlock_filter_window (n k : ℕ) (w h : ℝ) :
    (bedroomBlock n k w h).filter (hasKind .window) = [] := by
  cases k <;> rfl

lemma bathroomBlock_filter_window (b k : ℕ) (w h : ℝ) :
    (bathroomBlock b k w h).filter (hasKind .window) = [] := rfl

lemma tailBlock_filter_window (w : ℝ) (st : String) :
    (tailBlock w st).filter (hasKind .window) =
      [⟨.window, none, .rect ⟨startX - 0.2 - 0.3, startY + 15 - 0.3, 0.6, 0.6⟩⟩,
       ⟨.window, none, .rect ⟨startX - 0.2 - 0.3, startY + 35 - 0.3, 0.6, 0.6⟩⟩,
       ⟨.window, none, .rect ⟨startX + w + 0.2 - 0.3, startY + 15 - 0.3, 0.6, 0.6⟩⟩,
       ⟨.window, none, .rect ⟨startX + w + 0.2 - 0.3, startY + 35 - 0.3, 0.6, 0.6⟩⟩] := rfl

/-- Filtering over the bedroom/bathroom strip is empty when every block
filters to the empty list. -/
lemma filter_flatMap_range_nil (f : ℕ → List Prim) (pr : Prim → Bool) (m : ℕ)
    (hf : ∀ k, (f k).filter pr = []) :
    ((List.range m).flatMap f).filter pr = [] := by
  induction m with
  | zero => simp
  | succ m ih =>
      rw [List.range_succ, List.flatMap_append, List.filter_append, ih]
      simp [hf]

/-- Every member of the scene lies in one of the six structural parts. -/
lemma mem_sceneOf_cases {p : Prim} {n b : ℕ} {w h : ℝ} {st : String}
    (hp : p ∈ sceneOf n b w h st) :
    p = outerWallPrim w h ∨ p ∈ livingBlock w h ∨ p ∈ kitchenBlock w h ∨
      (∃ k, k < n ∧ p ∈ bedroomBlock n k w h) ∨
      (∃ k, k < b ∧ p ∈ bathroomBlock b k w h) ∨ p ∈ tailBlock w st := by
  simp only [sceneOf, List.mem_cons, List.mem_append, List.mem_flatMap,
    List.mem_range] at hp
  rcases hp with rfl | (((hL | hK) | ⟨k, hk, hmem⟩) | ⟨k, hk, hmem⟩) | hT
  · exact Or.inl rfl
  · exact Or.inr (Or.inl hL)
  · exact Or.inr (Or.inr (Or.inl hK))
  · exact Or.inr (Or.inr (Or.inr (Or.inl ⟨k, hk, hmem⟩)))
  · exact Or.inr (Or.inr (Or.inr (Or.inr (Or.inl ⟨k, hk, hmem⟩))))
  · exact Or.inr (Or.inr (Or.inr (Or.inr (Or.inr hT))))

/-- Kinds occurring in the living block. -/
lemma livingBlock_kinds {w h : ℝ} {p : Prim} (hp : p ∈ livingBlock w h) :
    p.kind = .zone ∨ p.kind = .fixture ∨ p.kind = .label := by
  simp only [livingBlock, List.mem_cons, List.not_mem_nil, or_false] at hp
  rcases hp with rfl | rfl | rfl | rfl | rfl | rfl | rfl | rfl | rfl | rfl |
    rfl | rfl | rfl | rfl <;> simp

/-- Kinds occurring in the kitchen block. -/
lemma kitchenBlock_kinds {w h : ℝ} {p : Prim} (hp : p ∈ kitchenBlock w h) :
    p.kind = .zone ∨ p.kind = .fixture ∨ p.kind = .label := by
  simp only [kitchenBlock, List.mem_cons, List.not_mem_nil, or_false] at hp
  rcases hp with rfl | rfl | rfl | rfl | rfl | rfl | rfl | rfl | rfl | rfl |
    rfl | rfl | rfl | rfl | rfl <;> simp

/-- Kinds occurring in a bedroom block. -/
lemma bedroomBlock_kinds {n k : ℕ} {w h : ℝ} {p : Prim}
    (hp : p ∈ bedroomBlock n k w h) :
    p.kind = .zone ∨ p.kind = .fixture ∨ p.kind = .label := by
  cases k with
  | zero =>
      simp [bedroomBlock] at hp
      rcases hp with rfl | rfl | rfl | rfl | rfl | rfl | rfl | rfl <;> simp
  | succ k =>
      simp [bedroomBlock] at hp
      rcases hp with rfl | rfl | rfl | rfl | rfl | rfl <;> simp

/-- Kinds occurring in a bathroom block. -/
lemma bathroomBlock_kinds {b k : ℕ} {w h : ℝ} {p : Prim}
    (hp : p ∈ bathroomBlock b k w h) :
    p.kind = .zone ∨ p.kind = .fixture ∨ p.kind = .label := by
  simp only [bathroomBlock, List.mem_cons, List.not_mem_nil, or_false] at hp
  rcases hp with rfl | rfl | rfl | rfl | rfl | rfl | rfl | rfl <;> simp

/-- Scene counts decompose over the six structural parts. -/
lemma countP_sceneOf (pr : Prim → Bool) (n b : ℕ) (w h : ℝ) (st : String) :
    (sceneOf n b w h st).countP pr =
      ([outerWallPrim w h] : List Prim).countP pr +
        (livingBlock w h).countP pr + (kitchenBlock w h).countP pr +
        ((List.range n).flatMap fun k => bedroomBlock n k w h).countP pr +
        ((List.range b).flatMap fun k => bathroomBlock b k w h).countP pr +
        (tailBlock w st).countP pr := by
  rw [sceneOf, ← List.singleton_append]
  simp only [List.countP_append]
  ring

/-- The envelope sits in none of the zone or fixture classes. -/
lemma outer_count_living (w h : ℝ) :
    ([outerWallPrim w h] : List Prim).countP isLivingZone = 0 := rfl

lemma outer_count_kitchen (w h : ℝ) :
    ([outerWallPrim w h] : List Prim).countP isKitchenZone = 0 := rfl

lemma outer_count_bedroom (w h : ℝ) :
    ([outerWallPrim w h] : List Prim).countP isBedroomZone = 0 := rfl

lemma outer_count_bathroom (w h : ℝ) :
    ([outerWallPrim w h] : List Prim).countP isBathroomZone = 0 := rfl

lemma outer_count_zone (w h : ℝ) :
    ([outerWallPrim w h] : List Prim).countP (hasKind .zone) = 0 := rfl

lemma outer_count_fixture (w h : ℝ) :
    ([outerWallPrim w h] : List Prim).countP (hasKind .fixture) = 0 := rfl

lemma outer_count_door (w h : ℝ) :
    ([outerWallPrim w h] : List Prim).countP (hasKind .door) = 0 := rfl

/-- C3: a valid specification yields exactly one Living zone, one Kitchen
zone, `n` Bedroom zones and `b` Bathroom zones, `2 + n + b` zone
rectangles in all. -/
theorem c3_zone_counts (n b : ℕ) (a : ℝ) (st : String)
    (hn : 1 ≤ n) (hb : 1 ≤ b) (ha : 0 < a) :
    ∃ s, draw n b a st = .ok s ∧
      s.countP isLivingZone = 1 ∧ s.countP isKitchenZone = 1 ∧
      s.countP isBedroomZone = n ∧ s.countP isBathroomZone = b ∧
      s.countP (hasKind .zone) = 2 + n + b := by
  refine ⟨_, by rw [draw, if_neg (by rintro ⟨h0, h1⟩; omega)], ?_, ?_, ?_, ?_, ?_⟩
  · rw [countP_sceneOf,
      countP_flatMap_range _ _ 0 n (fun k => bedroomBlock_count_living n k _ _),
      countP_flatMap_range _ _ 0 b (fun k => bathroomBlock_count_living b k _ _),
      outer_count_living, livingBlock_count_living, kitchenBlock_count_living,
      tailBlock_count_living]
    omega
  · rw [countP_sceneOf,
      countP_flatMap_range _ _ 0 n (fun k => bedroomBlock_count_kitchen n k _ _),
      countP_flatMap_range _ _ 0 b (fun k => bathroomBlock_count_kitchen b k _ _),
      outer_count_kitchen, livingBlock_count_kitchen, kitchenBlock_count_kitchen,
      tailBlock_count_kitchen]
    omega
  · rw [countP_sceneOf,
      countP_flatMap_range _ _ 1 n (fun k => bedroomBlock_count_bedroom n k _ _),
      countP_flatMap_range _ _ 0 b (fun k => bathroomBlock_count_bedroom b k _ _),
      outer_count_bedroom, livingBlock_count_bedroom, kitchenBlock_count_bedroom,
      tailBlock_count_bedroom]
    omega
  · rw [countP_sceneOf,
      countP_flatMap_range _ _ 0 n (fun k => bedroomBlock_count_bathroom n k _ _),
      countP_flatMap_range _ _ 1 b (fun k => bathroomBlock_count_bathroom b k _ _),
      outer_count_bathroom, livingBlock_count_bathroom,
      kitchenBlock_count_bathroom, tailBlock_count_bathroom]
    omega
  · rw [countP_sceneOf,
      countP_flatMap_range _ _ 1 n (fun k => bedroomBlock_count_zone n k _ _),
      countP_flatMap_range _ _ 1 b (fun k => bathroomBlock_count_zone b k _ _),
      outer_count_zone, livingBlock_count_zone, kitchenBlock_count_zone,
      tailBlock_count_zone]
    omega

/-- Witness for `c3_zone_counts` at the concrete scenario of the spec:
3 bedrooms, 2 bathrooms, area 2000. -/
theorem c3_zone_counts_witness :
    1 ≤ 3 ∧ 1 ≤ 2 ∧ (0 : ℝ) < 2000 ∧
      (∃ s, draw 3 2 2000 ("Modern") = .ok s ∧
        s.countP isLivingZone = 1 ∧ s.countP isKitchenZone = 1 ∧
        s.countP isBedroomZone = 3 ∧ s.countP isBathroomZone = 2 ∧
        s.countP (hasKind .zone) = 2 + 3 + 2) :=
  ⟨by norm_num, by norm_num, by norm_num,
    c3_zone_counts 3 2 2000 ("Modern") (by norm_num) (by norm_num) (by norm_num)⟩

/-- Owners within each block. -/
lemma livingBlock_owner {w h : ℝ} {p : Prim} (hp : p ∈ livingBlock w h) :
    p.owner = some .living := by
  simp only [livingBlock, List.mem_cons, List.not_mem_nil, or_false] at hp
  rcases hp with rfl | rfl | rfl | rfl | rfl | rfl | rfl | rfl | rfl | rfl |
    rfl | rfl | rfl | rfl <;> rfl

lemma kitchenBlock_owner {w h : ℝ} {p : Prim} (hp : p ∈ kitchenBlock w h) :
    p.owner = some .kitchen := by
  simp only [kitchenBlock, List.mem_cons, List.not_mem_nil, or_false] at hp
  rcases hp with rfl | rfl | rfl | rfl | rfl | rfl | rfl | rfl | rfl | rfl |
    rfl | rfl | rfl | rfl | rfl <;> rfl

lemma bedroomBlock_owner {n k : ℕ} {w h : ℝ} {p : Prim}
    (hp : p ∈ bedroomBlock n k w h) : p.owner = some (.bedroom k) := by
  cases k with
  | zero =>
      simp [bedroomBlock] at hp
      rcases hp with rfl | rfl | rfl | rfl | rfl | rfl | rfl | rfl <;> rfl
  | succ k =>
      simp [bedroomBlock] at hp
      rcases hp with rfl | rfl | rfl | rfl | rfl | rfl <;> rfl

lemma bathroomBlock_owner {b k : ℕ} {w h : ℝ} {p : Prim}
    (hp : p ∈ bathroomBlock b k w h) : p.owner = some (.bathroom k) := by
  simp only [bathroomBlock, List.mem_cons, List.not_mem_nil, or_false] at hp
  rcases hp with rfl | rfl | rfl | rfl | rfl | rfl | rfl | rfl <;> rfl

/-- Kinds occurring in the tail block: openings and labels only. -/
lemma tailBlock_kinds {w : ℝ} {st : String} {p : Prim}
    (hp : p ∈ tailBlock w st) :
    p.kind = .door ∨ p.kind = .window ∨ p.kind = .label := by
  simp [tailBlock, windowPositions] at hp
  rcases hp with rfl | rfl | rfl | rfl | rfl | rfl | rfl | rfl | rfl | rfl <;>
    simp

/-- With at most five bedrooms each bedroom cell is at least 8 units
tall. -/
lemma bedroomHeight_ge {n : ℕ} (hn1 : 1 ≤ n) (hn5 : n ≤ 5) :
    (8 : ℝ) ≤ bedroomHeight n (625 / 9) := by
  have hn0 : (0 : ℝ) < n := by exact_mod_cast hn1
  have hn5' : (n : ℝ) ≤ 5 := by exact_mod_cast hn5
  rw [bedroomHeight, mainHeight, le_div_iff₀ hn0]
  nlinarith

/-- With at most six bathrooms each bathroom cell is at least 5.5 units
tall. -/
lemma bathHeight_ge {b : ℕ} (hb6 : b ≤ 6) :
    (5.5 : ℝ) ≤ bathHeight b (625 / 9) := by
  have hb0 : (0 : ℝ) < (b : ℝ) + 1.5 := by positivity
  have hb6' : (b : ℝ) ≤ 6 := by exact_mod_cast hb6
  rw [bathHeight, mainHeight, le_div_iff₀ hb0]
  nlinarith

/-- Living-room furniture is contained in the living rectangle on the
standard footprint. -/
lemma living_fixture_contained {p : Prim} (hp : p ∈ livingBlock 100 (625 / 9))
    (hk : p.kind = .fixture) :
    (p.shape.bounds).within (livingRect 100 (625 / 9)) := by
  simp only [livingBlock, List.mem_cons, List.not_mem_nil, or_false] at hp
  rcases hp with rfl | rfl | rfl | rfl | rfl | rfl | rfl | rfl | rfl | rfl |
    rfl | rfl | rfl | rfl <;>
    simp_all [Shape.bounds, livingRect, Rect.within, startX, startY,
      mainHeight, hallWidth] <;> norm_num

/-- Kitchen appliances are contained in the kitchen rectangle on the
standard footprint. -/
lemma kitchen_fixture_contained {p : Prim}
    (hp : p ∈ kitchenBlock 100 (625 / 9)) (hk : p.kind = .fixture) :
    (p.shape.bounds).within (kitchenRect 100 (625 / 9)) := by
  simp only [kitchenBlock, List.mem_cons, List.not_mem_nil, or_false] at hp
  rcases hp with rfl | rfl | rfl | rfl | rfl | rfl | rfl | rfl | rfl | rfl |
    rfl | rfl | rfl | rfl | rfl <;>
    simp_all [Shape.bounds, kitchenRect, Rect.within, startX, startY,
      mainHeight, hallWidth] <;> norm_num

/-- Bedroom furniture is contained in its bedroom rectangle whenever at
most five bedrooms share the column. -/
lemma bedroom_fixture_contained {n k : ℕ} {p : Prim} (hn1 : 1 ≤ n)
    (hn5 : n ≤ 5) (hp : p ∈ bedroomBlock n k 100 (625 / 9))
    (hk : p.kind = .fixture) :
    (p.shape.bounds).within (bedroomRect n k 100 (625 / 9)) := by
  have h8 := bedroomHeight_ge hn1 hn5
  cases k with
  | zero =>
      simp [bedroomBlock] at hp
      rcases hp with rfl | rfl | rfl | rfl | rfl | rfl | rfl | rfl <;>
        simp_all [Shape.bounds, bedroomRect, Rect.within, startX, startY,
          hallWidth] <;>
        constructor <;> norm_num <;> linarith
  | succ k =>
      simp [bedroomBlock] at hp
      rcases hp with rfl | rfl | rfl | rfl | rfl | rfl <;>
        simp_all [Shape.bounds, bedroomRect, Rect.within, startX, startY,
          hallWidth] <;>
        constructor <;> norm_num <;> linarith

/-- Bathroom fixtures are contained in their bathroom rectangle whenever
at most six bathrooms share the column. -/
lemma bathroom_fixture_contained {b k : ℕ} {p : Prim} (hb6 : b ≤ 6)
    (hp : p ∈ bathroomBlock b k 100 (625 / 9)) (hk : p.kind = .fixture) :
    (p.shape.bounds).within (bathroomRect b k 100 (625 / 9)) := by
  have h55 := bathHeight_ge hb6
  simp only [bathroomBlock, List.mem_cons, List.not_mem_nil, or_false] at hp
  rcases hp with rfl | rfl | rfl | rfl | rfl | rfl | rfl | rfl <;>
    simp_all [Shape.bounds, bathroomRect, Rect.within, startX, startY,
      hallWidth] <;>
    (repeat' constructor) <;> linarith

/-- C1 (amended): fixtures are emitted at fixed offsets and sizes and are
never dropped (the fixture count is exactly `19 + 2n + 3b`); with at most
five bedrooms and six bathrooms every fixture lies inside its owner
zone rectangle.  There is no clamping in the code, so for larger counts
fixtures overflow their zone (see the counterexample). -/
theorem c1_fixture_containment_amended (n b : ℕ) (a : ℝ) (st : String)
    (hn1 : 1 ≤ n) (hn5 : n ≤ 5) (hb1 : 1 ≤ b) (hb6 : b ≤ 6) (ha : 0 < a) :
    ∃ s, draw n b a st = .ok s ∧
      (∀ p ∈ s, p.kind = .fixture → ∀ z, p.owner = some z →
        (p.shape.bounds).within (zoneRectOf n b 100 (625 / 9) z)) ∧
      s.countP (hasKind .fixture) = 19 + 2 * n + 3 * b := by
  refine ⟨sceneOf n b 100 (625 / 9) st, ?_, ?_, ?_⟩
  · rw [draw, if_neg (by rintro ⟨h0, h1⟩; omega), footprint_eq_of_pos a ha]
  · intro p hp hk z hz
    rcases mem_sceneOf_cases hp with rfl | hL | hK | ⟨k, hkn, hmem⟩ |
      ⟨k, hkb, hmem⟩ | hT
    · simp [outerWallPrim] at hk
    · rw [livingBlock_owner hL] at hz
      injection hz with hz'
      subst hz'
      simpa [zoneRectOf] using living_fixture_contained hL hk
    · rw [kitchenBlock_owner hK] at hz
      injection hz with hz'
      subst hz'
      simpa [zoneRectOf] using kitchen_fixture_contained hK hk
    · rw [bedroomBlock_owner hmem] at hz
      injection hz with hz'
      subst hz'
      simpa [zoneRectOf] using bedroom_fixture_contained hn1 hn5 hmem hk
    · rw [bathroomBlock_owner hmem] at hz
      injection hz with hz'
      subst hz'
      simpa [zoneRectOf] using bathroom_fixture_contained hb6 hmem hk
    · rcases tailBlock_kinds hT with h1 | h1 | h1 <;> rw [hk] at h1 <;>
        cases h1
  · rw [countP_sceneOf,
      countP_flatMap_range_master _ _ 3 2 n
        (bedroomBlock_count_fixture_zero n 100 (625 / 9))
        (fun k => bedroomBlock_count_fixture_succ n k 100 (625 / 9)) hn1,
      countP_flatMap_range _ _ 3 b
        (fun k => bathroomBlock_count_fixture b k 100 (625 / 9)),
      outer_count_fixture, livingBlock_count_fixture,
      kitchenBlock_count_fixture, tailBlock_count_fixture]
    omega

/-- Witness for `c1_fixture_containment_amended` at 3 bedrooms, 2
bathrooms, area 2000. -/
theorem c1_fixture_containment_amended_witness :
    1 ≤ 3 ∧ 3 ≤ 5 ∧ 1 ≤ 2 ∧ 2 ≤ 6 ∧ (0 : ℝ) < 2000 ∧
      (∃ s, draw 3 2 2000 ("Contemporary") = .ok s ∧
        (∀ p ∈ s, p.kind = .fixture → ∀ z, p.owner = some z →
          (p.shape.bounds).within (zoneRectOf 3 2 100 (625 / 9) z)) ∧
        s.countP (hasKind .fixture) = 19 + 2 * 3 + 3 * 2) :=
  ⟨by norm_num, by norm_num, by norm_num, by norm_num, by norm_num,
    c1_fixture_containment_amended 3 2 2000 ("Contemporary") (by norm_num)
      (by norm_num) (by norm_num) (by norm_num) (by norm_num)⟩

/-- C1 counterexample: with six bedrooms (a valid specification) the bed
of bedroom 0 pokes out of the top of its zone rectangle: each bedroom
cell is only 125/18 - 2 units tall inside, while the bed reaches 7 units
above the cell floor.  Nothing in the code clamps it. -/
theorem c1_bed_overflow_cex :
    draw 6 1 100 ("Modern") =
      Except.ok (sceneOf 6 1 100 (625 / 9) ("Modern")) ∧
    (∃ p ∈ sceneOf 6 1 100 (625 / 9) ("Modern"),
      p.kind = .fixture ∧ p.owner = some (.bedroom 0) ∧
      ¬ (p.shape.bounds).within (zoneRectOf 6 1 100 (625 / 9) (.bedroom 0))) := by
  constructor
  · rw [draw, if_neg (by rintro ⟨h0, h1⟩; omega), footprint_eq_of_pos 100 (by norm_num)]
  · refine ⟨⟨.fixture, some (.bedroom 0),
      .rect ⟨startX + 3, bedroomY 6 0 (625 / 9) + 3, 6, 4⟩⟩, ?_, rfl, rfl, ?_⟩
    · have hb : (⟨.fixture, some (.bedroom 0),
          .rect ⟨startX + 3, bedroomY 6 0 (625 / 9) + 3, 6, 4⟩⟩ : Prim) ∈
            bedroomBlock 6 0 100 (625 / 9) := by simp [bedroomBlock]
      have hfm : (⟨.fixture, some (.bedroom 0),
          .rect ⟨startX + 3, bedroomY 6 0 (625 / 9) + 3, 6, 4⟩⟩ : Prim) ∈
            (List.range 6).flatMap fun k => bedroomBlock 6 k 100 (625 / 9) :=
        List.mem_flatMap.mpr ⟨0, by simp, hb⟩
      simp only [sceneOf, List.mem_cons, List.mem_append]
      tauto
    · intro hcon
      rcases hcon with ⟨h1, h2, h3, h4⟩
      rw [zoneRectOf] at *
      simp only [Shape.bounds, bedroomRect, bedroomHeight, mainHeight] at h4
      norm_num at h4
      linarith

/-- At `area = 0` the raw solver returns width 0 and the fallback height
12 from the guarded division. -/
lemma footprintRaw_zero : footprintRaw 0 = (0, 12) := by
  simp [footprintRaw, Real.sqrt_zero]

/-- At `area = 0` rescaling pins the fallback height to the canvas
budget and keeps the width at 0. -/
lemma footprint_zero : footprint 0 = (0, 100) := by
  rw [footprint, footprintRaw_zero]
  norm_num

/-- C2 counterexample: `area = 0` raises nothing and a scene is produced
(with a zero-width footprint), contradicting the claim that a
ValidationError is raised and no Scene exists for this input. -/
theorem c2_no_validation_cex :
    (∃ s, draw 1 1 0 ("Modern") = Except.ok s) ∧ footprint 0 = (0, 100) :=
  ⟨⟨_, rfl⟩, footprint_zero⟩

/-- C2 (amended): there is no input validation at all.  `area = 0` and
`area = -5` produce a scene without any error (the source propagates the
degenerate or NaN geometry silently; the real-valued model maps both to
the zero-width footprint).  `bedroomCount = 0` with a positive area also
raises nothing: the bedroom-height division is NumPy float division by
zero, which only warns, the bedroom loop is skipped, and a complete
figure with zero bedroom zones is returned.  Only `bedroomCount = 0`
together with a nonpositive area hits the genuine `ZeroDivisionError` of
the guarded fallback height - still not a ValidationError. -/
theorem c2_error_behavior_amended :
    (∃ s, draw 1 1 0 ("Modern") = Except.ok s ∧ 0 < s.length) ∧
    (∃ s, draw 1 1 (-5) ("Modern") = Except.ok s) ∧
    (∃ s, draw 0 1 100 ("Modern") = Except.ok s ∧
      s.countP isBedroomZone = 0 ∧ s.countP isBathroomZone = 1 ∧
      s.countP (hasKind .door) = 1) ∧
    draw 0 1 0 ("Modern") = Except.error RunError.zeroDivisionError := by
  refine ⟨⟨_, rfl, ?_⟩, ⟨_, rfl⟩,
    ⟨sceneOf 0 1 (footprint 100).1 (footprint 100).2 ("Modern"), ?_,
      rfl, rfl, rfl⟩, ?_⟩
  · simp [sceneOf]
  · rw [draw, if_neg]
    rintro ⟨h0, h1⟩
    norm_num at h1
  · rw [draw, if_pos ⟨rfl, le_refl (0 : ℝ)⟩]

/-- C10: the footprint computation is total at `area = 0`: the width
evaluates to 0, the guarded division falls back to height 12, the
rescale division is well defined (giving the degenerate 0 by 100
footprint), and the routine still produces a scene. -/
theorem c10_area_zero_total (n b : ℕ) (st : String) (hn : 1 ≤ n) :
    footprintRaw 0 = (0, 12) ∧ footprint 0 = (0, 100) ∧
      ∃ s, draw n b 0 st = .ok s ∧ 0 < s.length := by
  refine ⟨footprintRaw_zero, footprint_zero,
    ⟨_, by rw [draw, if_neg (by rintro ⟨h0, h1⟩; omega)], ?_⟩⟩
  simp [sceneOf]

/-- Witness for `c10_area_zero_total` with one bedroom and one
bathroom. -/
theorem c10_area_zero_total_witness :
    1 ≤ 1 ∧ (footprintRaw 0 = (0, 12) ∧ footprint 0 = (0, 100) ∧
      ∃ s, draw 1 1 0 ("Modern") = .ok s ∧ 0 < s.length) :=
  ⟨by norm_num, c10_area_zero_total 1 1 ("Modern") (by norm_num)⟩

/-- The only zone-kind primitive of the living block is the living zone
rectangle. -/
lemma livingBlock_zone_eq {w h : ℝ} {p : Prim} (hp : p ∈ livingBlock w h)
    (hk : p.kind = .zone) :
    p = ⟨.zone, some .living, .rect (livingRect w h)⟩ := by
  simp only [livingBlock, List.mem_cons, List.not_mem_nil, or_false] at hp
  rcases hp with rfl | rfl | rfl | rfl | rfl | rfl | rfl | rfl | rfl | rfl |
    rfl | rfl | rfl | rfl <;> simp_all

/-- The only zone-kind primitive of the kitchen block is the kitchen zone
rectangle. -/
lemma kitchenBlock_zone_eq {w h : ℝ} {p : Prim} (hp : p ∈ kitchenBlock w h)
    (hk : p.kind = .zone) :
    p = ⟨.zone, some .kitchen, .rect (kitchenRect w h)⟩ := by
  simp only [kitchenBlock, List.mem_cons, List.not_mem_nil, or_false] at hp
  rcases hp with rfl | rfl | rfl | rfl | rfl | rfl | rfl | rfl | rfl | rfl |
    rfl | rfl | rfl | rfl | rfl <;> simp_all

/-- The only zone-kind primitive of a bedroom block is its zone
rectangle. -/
lemma bedroomBlock_zone_eq {n k : ℕ} {w h : ℝ} {p : Prim}
    (hp : p ∈ bedroomBlock n k w h) (hk : p.kind = .zone) :
    p = ⟨.zone, some (.bedroom k), .rect (bedroomRect n k w h)⟩ := by
  cases k with
  | zero =>
      simp [bedroomBlock] at hp
      rcases hp with rfl | rfl | rfl | rfl | rfl | rfl | rfl | rfl <;> simp_all
  | succ k =>
      simp [bedroomBlock] at hp
      rcases hp with rfl | rfl | rfl | rfl | rfl | rfl <;> simp_all

/-- The only zone-kind primitive of a bathroom block is its zone
rectangle. -/
lemma bathroomBlock_zone_eq {b k : ℕ} {w h : ℝ} {p : Prim}
    (hp : p ∈ bathroomBlock b k w h) (hk : p.kind = .zone) :
    p = ⟨.zone, some (.bathroom k), .rect (bathroomRect b k w h)⟩ := by
  simp only [bathroomBlock, List.mem_cons, List.not_mem_nil, or_false] at hp
  rcases hp with rfl | rfl | rfl | rfl | rfl | rfl | rfl | rfl <;> simp_all

/-- C5 counterexample: the Living zone does not lie in the bottom band of
height `totalHeight / 2.5` - it sits strictly above it.  With one bedroom
and one bathroom the unique Living zone rectangle starts at
`y = 10 + 625/9 - 250/9 - 1`, above the top of the claimed bottom service
band `10 + (625/9) / 2.5`. -/
theorem c5_service_band_top_cex :
    draw 1 1 100 ("Modern") =
      Except.ok (sceneOf 1 1 100 (625 / 9) ("Modern")) ∧
    (sceneOf 1 1 100 (625 / 9) ("Modern")).countP isLivingZone = 1 ∧
    ∃ p ∈ sceneOf 1 1 100 (625 / 9) ("Modern"), isLivingZone p = true ∧
      startY + (625 / 9) / 2.5 < (p.shape.bounds).y := by
  refine ⟨?_, rfl,
    ⟨⟨.zone, some .living, .rect (livingRect 100 (625 / 9))⟩, ?_, rfl, ?_⟩⟩
  · rw [draw, if_neg (by rintro ⟨h0, h1⟩; omega), footprint_eq_of_pos 100 (by norm_num)]
  · simp [sceneOf, livingBlock]
  · simp only [Shape.bounds, livingRect, startY, mainHeight]
    norm_num

/-- C5 (amended): the split at height `totalHeight / 2.5` is real, but
the service band holding Living and Kitchen occupies the TOP of the
footprint, not the bottom: both their rectangles lie within the top band
(extended one unit downward by the stroke inset), while every Bedroom and
Bathroom rectangle tops out at or below the band boundary. -/
theorem c5_band_split_amended (n b : ℕ) (a : ℝ) (st : String)
    (hn : 1 ≤ n) (hb : 1 ≤ b) (ha : 0 < a) :
    ∃ s, draw n b a st = .ok s ∧
      ∀ p ∈ s, p.kind = .zone → ∀ z, p.owner = some z →
        (match z with
         | .living =>
             serviceBandY (625 / 9) - 1 ≤ (p.shape.bounds).y ∧
               (p.shape.bounds).y + (p.shape.bounds).h ≤ startY + 625 / 9
         | .kitchen =>
             serviceBandY (625 / 9) - 1 ≤ (p.shape.bounds).y ∧
               (p.shape.bounds).y + (p.shape.bounds).h ≤ startY + 625 / 9
         | .bedroom _ =>
             (p.shape.bounds).y + (p.shape.bounds).h ≤ serviceBandY (625 / 9)
         | .bathroom _ =>
             (p.shape.bounds).y + (p.shape.bounds).h ≤ serviceBandY (625 / 9)) := by
  refine ⟨sceneOf n b 100 (625 / 9) st,
    by rw [draw, if_neg (by rintro ⟨h0, h1⟩; omega), footprint_eq_of_pos a ha], ?_⟩
  intro p hp hk z hz
  rcases mem_sceneOf_cases hp with rfl | hL | hK | ⟨k, hkn, hmem⟩ |
    ⟨k, hkb, hmem⟩ | hT
  · simp [outerWallPrim] at hk
  · rw [livingBlock_zone_eq hL hk] at hz ⊢
    injection hz with hz'
    subst hz'
    simp only [Shape.bounds, livingRect, serviceBandY, startY, mainHeight]
    norm_num
  · rw [kitchenBlock_zone_eq hK hk] at hz ⊢
    injection hz with hz'
    subst hz'
    simp only [Shape.bounds, kitchenRect, serviceBandY, startY, mainHeight]
    norm_num
  · rw [bedroomBlock_zone_eq hmem hk] at hz ⊢
    injection hz with hz'
    subst hz'
    have hn0 : (0 : ℝ) < n := by exact_mod_cast hn
    have hbh0 : 0 ≤ bedroomHeight n (625 / 9) := by
      rw [bedroomHeight, mainHeight]
      positivity
    have hc : ((n - k - 1 : ℕ) : ℝ) ≤ (n : ℝ) - 1 := by
      have h1 : (n - k - 1 : ℕ) ≤ n - 1 := by omega
      have h2 : ((n - 1 : ℕ) : ℝ) = (n : ℝ) - 1 := by
        push_cast [Nat.cast_sub hn]
        ring
      calc ((n - k - 1 : ℕ) : ℝ) ≤ ((n - 1 : ℕ) : ℝ) := by exact_mod_cast h1
      _ = (n : ℝ) - 1 := h2
    have hnbh : (n : ℝ) * bedroomHeight n (625 / 9) =
        625 / 9 - (625 / 9) / 2.5 := by
      rw [bedroomHeight, mainHeight]
      field_simp
      ring
    have hprod := mul_le_mul_of_nonneg_right hc hbh0
    simp only [Shape.bounds, bedroomRect, bedroomY, serviceBandY, startY,
      mainHeight]
    nlinarith
  · rw [bathroomBlock_zone_eq hmem hk] at hz ⊢
    injection hz with hz'
    subst hz'
    have hb1 : (0 : ℝ) < (b : ℝ) + 1 := by positivity
    have hb15 : (0 : ℝ) < (b : ℝ) + 1.5 := by positivity
    have hnum : (0 : ℝ) ≤ 625 / 9 - (625 / 9) / 2.5 := by norm_num
    have hle : bathHeight b (625 / 9) ≤
        (625 / 9 - (625 / 9) / 2.5) / ((b : ℝ) + 1) := by
      rw [bathHeight, mainHeight]
      exact div_le_div_of_nonneg_left hnum hb1 (by norm_num)
    have hk0 : 0 ≤ (k : ℝ) * bathHeight b (625 / 9) := by
      apply mul_nonneg (by positivity)
      rw [bathHeight, mainHeight]
      positivity
    simp only [Shape.bounds, bathroomRect, bathY, bathYStart, serviceBandY,
      startY, mainHeight]
    set D := (625 / 9 - (625 / 9) / 2.5 : ℝ) / ((b : ℝ) + 1) with hD
    nlinarith [hle, hk0]
  · rcases tailBlock_kinds hT with h1 | h1 | h1 <;> rw [hk] at h1 <;> cases h1

/-- Witness for `c5_band_split_amended` at 3 bedrooms, 2 bathrooms,
area 2000. -/
theorem c5_band_split_amended_witness :
    1 ≤ 3 ∧ 1 ≤ 2 ∧ (0 : ℝ) < 2000 ∧
      (∃ s, draw 3 2 2000 ("Modern") = .ok s ∧
        ∀ p ∈ s, p.kind = .zone → ∀ z, p.owner = some z →
          (match z with
           | .living =>
               serviceBandY (625 / 9) - 1 ≤ (p.shape.bounds).y ∧
                 (p.shape.bounds).y + (p.shape.bounds).h ≤ startY + 625 / 9
           | .kitchen =>
               serviceBandY (625 / 9) - 1 ≤ (p.shape.bounds).y ∧
                 (p.shape.bounds).y + (p.shape.bounds).h ≤ startY + 625 / 9
           | .bedroom _ =>
               (p.shape.bounds).y + (p.shape.bounds).h ≤ serviceBandY (625 / 9)
           | .bathroom _ =>
               (p.shape.bounds).y + (p.shape.bounds).h ≤
                 serviceBandY (625 / 9))) :=
  ⟨by norm_num, by norm_num, by norm_num,
    c5_band_split_amended 3 2 2000 ("Modern") (by norm_num) (by norm_num)
      (by norm_num)⟩

/-- C6 counterexample: the emitted primitive kinds are not globally
sorted zones-fixtures-openings-labels; the scene interleaves each zone
rectangle with its own furniture and labels (already the sofa and its
label precede the kitchen zone rectangle). -/
theorem c6_interleaved_order_cex :
    draw 1 1 100 ("Modern") =
      Except.ok (sceneOf 1 1 (footprint 100).1 (footprint 100).2 ("Modern")) ∧
    ranksMonotone ((sceneOf 1 1 (footprint 100).1 (footprint 100).2
      ("Modern")).map (fun p => orderRank p.kind)) = false :=
  ⟨rfl, rfl⟩

/-- Each zone block after its leading zone rectangle holds only that
fixtures and labels of that zone (living room). -/
lemma livingBlock_tail_parts {w h : ℝ} {p : Prim}
    (hp : p ∈ (livingBlock w h).tail) :
    (p.kind = .fixture ∨ p.kind = .label) ∧ p.owner = some .living := by
  simp only [livingBlock, List.tail_cons, List.mem_cons, List.not_mem_nil,
    or_false] at hp
  rcases hp with rfl | rfl | rfl | rfl | rfl | rfl | rfl | rfl | rfl | rfl |
    rfl | rfl | rfl <;> simp

/-- Each zone block after its leading zone rectangle holds only that
fixtures and labels of that zone (kitchen). -/
lemma kitchenBlock_tail_parts {w h : ℝ} {p : Prim}
    (hp : p ∈ (kitchenBlock w h).tail) :
    (p.kind = .fixture ∨ p.kind = .label) ∧ p.owner = some .kitchen := by
  simp only [kitchenBlock, List.tail_cons, List.mem_cons, List.not_mem_nil,
    or_false] at hp
  rcases hp with rfl | rfl | rfl | rfl | rfl | rfl | rfl | rfl | rfl | rfl |
    rfl | rfl | rfl | rfl <;> simp

/-- Each zone block after its leading zone rectangle holds only that
fixtures and labels of that zone (bedrooms). -/
lemma bedroomBlock_tail_parts {n k : ℕ} {w h : ℝ} {p : Prim}
    (hp : p ∈ (bedroomBlock n k w h).tail) :
    (p.kind = .fixture ∨ p.kind = .label) ∧ p.owner = some (.bedroom k) := by
  cases k with
  | zero =>
      simp [bedroomBlock] at hp
      rcases hp with rfl | rfl | rfl | rfl | rfl | rfl | rfl <;> simp
  | succ k =>
      simp [bedroomBlock] at hp
      rcases hp with rfl | rfl | rfl | rfl | rfl <;> simp

/-- Each zone block after its leading zone rectangle holds only that
fixtures and labels of that zone (bathrooms). -/
lemma bathroomBlock_tail_parts {b k : ℕ} {w h : ℝ} {p : Prim}
    (hp : p ∈ (bathroomBlock b k w h).tail) :
    (p.kind = .fixture ∨ p.kind = .label) ∧ p.owner = some (.bathroom k) := by
  simp only [bathroomBlock, List.tail_cons, List.mem_cons, List.not_mem_nil,
    or_false] at hp
  rcases hp with rfl | rfl | rfl | rfl | rfl | rfl | rfl <;> simp

/-- C6 (amended): the scene is emitted zone by zone, not kind by kind.
It decomposes as the outer wall, then one contiguous segment per zone in
the order living, kitchen, bedrooms, bathrooms - each segment being the
zone rectangle first, followed only by the fixtures and
labels (so the sofa precedes the kitchen zone rectangle) - and finally
the fixed tail: door, door label, the four windows, then the four global
text labels.  No opening occurs before the tail. -/
theorem c6_order_amended (n b : ℕ) (a : ℝ) (st : String)
    (hn : 1 ≤ n) (hb : 1 ≤ b) (ha : 0 < a) :
    draw n b a st = .ok
      ((outerWallPrim 100 (625 / 9) ::
        (livingBlock 100 (625 / 9) ++ kitchenBlock 100 (625 / 9) ++
          (List.range n).flatMap (fun k => bedroomBlock n k 100 (625 / 9)) ++
          (List.range b).flatMap (fun k => bathroomBlock b k 100 (625 / 9)))) ++
        tailBlock 100 st) ∧
    (outerWallPrim 100 (625 / 9)).kind = .footprintWall ∧
    (livingBlock 100 (625 / 9)).head? =
      some ⟨.zone, some .living, .rect (livingRect 100 (625 / 9))⟩ ∧
    (∀ p ∈ (livingBlock 100 (625 / 9)).tail,
      (p.kind = .fixture ∨ p.kind = .label) ∧ p.owner = some .living) ∧
    (kitchenBlock 100 (625 / 9)).head? =
      some ⟨.zone, some .kitchen, .rect (kitchenRect 100 (625 / 9))⟩ ∧
    (∀ p ∈ (kitchenBlock 100 (625 / 9)).tail,
      (p.kind = .fixture ∨ p.kind = .label) ∧ p.owner = some .kitchen) ∧
    (∀ k, k < n →
      (bedroomBlock n k 100 (625 / 9)).head? =
        some ⟨.zone, some (.bedroom k), .rect (bedroomRect n k 100 (625 / 9))⟩ ∧
      ∀ p ∈ (bedroomBlock n k 100 (625 / 9)).tail,
        (p.kind = .fixture ∨ p.kind = .label) ∧ p.owner = some (.bedroom k)) ∧
    (∀ k, k < b →
      (bathroomBlock b k 100 (625 / 9)).head? =
        some ⟨.zone, some (.bathroom k), .rect (bathroomRect b k 100 (625 / 9))⟩ ∧
      ∀ p ∈ (bathroomBlock b k 100 (625 / 9)).tail,
        (p.kind = .fixture ∨ p.kind = .label) ∧ p.owner = some (.bathroom k)) ∧
    (∀ p, (p ∈ livingBlock 100 (625 / 9) ∨ p ∈ kitchenBlock 100 (625 / 9) ∨
        (∃ k, k < n ∧ p ∈ bedroomBlock n k 100 (625 / 9)) ∨
        (∃ k, k < b ∧ p ∈ bathroomBlock b k 100 (625 / 9))) →
      p.kind ≠ .door ∧ p.kind ≠ .window) ∧
    (tailBlock 100 st).map Prim.kind =
      [.door, .label, .window, .window, .window, .window,
       .label, .label, .label, .label] := by
  refine ⟨?_, rfl, rfl, ?_, rfl, ?_, ?_, ?_, ?_, rfl⟩
  · rw [draw, if_neg (by rintro ⟨h0, h1⟩; omega), footprint_eq_of_pos a ha]
    simp [sceneOf, List.append_assoc]
  · exact fun p hp => livingBlock_tail_parts hp
  · exact fun p hp => kitchenBlock_tail_parts hp
  · exact fun k hk => ⟨rfl, fun p hp => bedroomBlock_tail_parts hp⟩
  · exact fun k hk => ⟨rfl, fun p hp => bathroomBlock_tail_parts hp⟩
  · intro p hp
    have hkind : p.kind = .zone ∨ p.kind = .fixture ∨ p.kind = .label := by
      rcases hp with hL | hK | ⟨k, hk, hm⟩ | ⟨k, hk, hm⟩
      · exact livingBlock_kinds hL
      · exact kitchenBlock_kinds hK
      · exact bedroomBlock_kinds hm
      · exact bathroomBlock_kinds hm
    rcases hkind with h | h | h <;> rw [h] <;> exact ⟨by simp, by simp⟩

/-- Witness for `c6_order_amended` at 3 bedrooms, 2 bathrooms,
area 2000. -/
theorem c6_order_amended_witness :
    1 ≤ 3 ∧ 1 ≤ 2 ∧ (0 : ℝ) < 2000 ∧
      (
    draw 3 2 2000 ("Modern") = .ok
      ((outerWallPrim 100 (625 / 9) ::
        (livingBlock 100 (625 / 9) ++ kitchenBlock 100 (625 / 9) ++
          (List.range 3).flatMap (fun k => bedroomBlock 3 k 100 (625 / 9)) ++
          (List.range 2).flatMap (fun k => bathroomBlock 2 k 100 (625 / 9)))) ++
        tailBlock 100 ("Modern")) ∧
    (outerWallPrim 100 (625 / 9)).kind = .footprintWall ∧
    (livingBlock 100 (625 / 9)).head? =
      some ⟨.zone, some .living, .rect (livingRect 100 (625 / 9))⟩ ∧
    (∀ p ∈ (livingBlock 100 (625 / 9)).tail,
      (p.kind = .fixture ∨ p.kind = .label) ∧ p.owner = some .living) ∧
    (kitchenBlock 100 (625 / 9)).head? =
      some ⟨.zone, some .kitchen, .rect (kitchenRect 100 (625 / 9))⟩ ∧
    (∀ p ∈ (kitchenBlock 100 (625 / 9)).tail,
      (p.kind = .fixture ∨ p.kind = .label) ∧ p.owner = some .kitchen) ∧
    (∀ k, k < 3 →
      (bedroomBlock 3 k 100 (625 / 9)).head? =
        some ⟨.zone, some (.bedroom k), .rect (bedroomRect 3 k 100 (625 / 9))⟩ ∧
      ∀ p ∈ (bedroomBlock 3 k 100 (625 / 9)).tail,
        (p.kind = .fixture ∨ p.kind = .label) ∧ p.owner = some (.bedroom k)) ∧
    (∀ k, k < 2 →
      (bathroomBlock 2 k 100 (625 / 9)).head? =
        some ⟨.zone, some (.bathroom k), .rect (bathroomRect 2 k 100 (625 / 9))⟩ ∧
      ∀ p ∈ (bathroomBlock 2 k 100 (625 / 9)).tail,
        (p.kind = .fixture ∨ p.kind = .label) ∧ p.owner = some (.bathroom k)) ∧
    (∀ p, (p ∈ livingBlock 100 (625 / 9) ∨ p ∈ kitchenBlock 100 (625 / 9) ∨
        (∃ k, k < 3 ∧ p ∈ bedroomBlock 3 k 100 (625 / 9)) ∨
        (∃ k, k < 2 ∧ p ∈ bathroomBlock 2 k 100 (625 / 9))) →
      p.kind ≠ .door ∧ p.kind ≠ .window) ∧
    (tailBlock 100 ("Modern")).map Prim.kind =
      [.door, .label, .window, .window, .window, .window,
       .label, .label, .label, .label]) :=
  ⟨by norm_num, by norm_num, by norm_num,
    c6_order_amended 3 2 2000 ("Modern") (by norm_num) (by norm_num)
      (by norm_num)⟩

/-- Tail-block primitives (door, windows, global labels) carry no zone
owner. -/
lemma tailBlock_owner {w : ℝ} {st : String} {p : Prim}
    (hp : p ∈ tailBlock w st) : p.owner = none := by
  simp [tailBlock, windowPositions] at hp
  rcases hp with rfl | rfl | rfl | rfl | rfl | rfl | rfl | rfl | rfl | rfl <;>
    rfl

/-- The only door-kind primitive of the tail block is the entry door at
the bottom edge. -/
lemma tailBlock_door_eq {w : ℝ} {st : String} {p : Prim}
    (hp : p ∈ tailBlock w st) (hk : p.kind = .door) :
    p = ⟨.door, none, .rect ⟨startX + hallWidth w - 1, startY, 2, 0.5⟩⟩ := by
  simp [tailBlock, windowPositions] at hp
  rcases hp with rfl | rfl | rfl | rfl | rfl | rfl | rfl | rfl | rfl | rfl <;>
    simp_all

/-- C7 counterexample: the Living zone is not adjacent to the footprint
bottom edge - its rectangle floats strictly above `start_y` - while the
unique door sits on the bottom edge, under the bedroom/bathroom strip,
so no door lies on a Living-to-bottom-edge boundary. -/
theorem c7_door_living_cex :
    draw 1 1 100 ("Modern") =
      Except.ok (sceneOf 1 1 100 (625 / 9) ("Modern")) ∧
    (sceneOf 1 1 100 (625 / 9) ("Modern")).countP isLivingZone = 1 ∧
    (∃ p ∈ sceneOf 1 1 100 (625 / 9) ("Modern"), isLivingZone p = true ∧
      startY < (p.shape.bounds).y) ∧
    (∃ d ∈ sceneOf 1 1 100 (625 / 9) ("Modern"), d.kind = .door ∧
      (d.shape.bounds).y = startY) := by
  refine ⟨?_, rfl,
    ⟨⟨.zone, some .living, .rect (livingRect 100 (625 / 9))⟩, ?_, rfl, ?_⟩,
    ⟨⟨.door, none,
      .rect ⟨startX + hallWidth 100 - 1, startY, 2, 0.5⟩⟩, ?_, rfl, rfl⟩⟩
  · rw [draw, if_neg (by rintro ⟨h0, h1⟩; omega), footprint_eq_of_pos 100 (by norm_num)]
  · simp [sceneOf, livingBlock]
  · simp only [Shape.bounds, livingRect, startY, mainHeight]
    norm_num
  · simp [sceneOf, tailBlock]

/-- C7 (amended): exactly one door is emitted; it sits on the footprint
bottom edge with its centre at the bottom edge midpoint
`start_x + width / 2` (the seam between the bedroom and bathroom
columns), while the Living zone is adjacent to the top edge and strictly
above the bottom edge. -/
theorem c7_door_amended (n b : ℕ) (a : ℝ) (st : String)
    (hn : 1 ≤ n) (hb : 1 ≤ b) (ha : 0 < a) :
    ∃ s, draw n b a st = .ok s ∧
      s.countP (hasKind .door) = 1 ∧
      (∀ p ∈ s, p.kind = .door →
        p.shape.bounds = ⟨startX + hallWidth 100 - 1, startY, 2, 0.5⟩ ∧
        (p.shape.bounds).x + (p.shape.bounds).w / 2 = startX + 100 / 2) ∧
      (∀ p ∈ s, isLivingZone p = true → startY < (p.shape.bounds).y) := by
  refine ⟨sceneOf n b 100 (625 / 9) st,
    by rw [draw, if_neg (by rintro ⟨h0, h1⟩; omega), footprint_eq_of_pos a ha], ?_, ?_, ?_⟩
  · rw [countP_sceneOf,
      countP_flatMap_range _ _ 0 n (fun k => bedroomBlock_count_door n k _ _),
      countP_flatMap_range _ _ 0 b (fun k => bathroomBlock_count_door b k _ _),
      outer_count_door, livingBlock_count_door, kitchenBlock_count_door,
      tailBlock_count_door]
    omega
  · intro p hp hk
    rcases mem_sceneOf_cases hp with rfl | hL | hK | ⟨k, hkn, hmem⟩ |
      ⟨k, hkb, hmem⟩ | hT
    · simp [outerWallPrim] at hk
    · rcases livingBlock_kinds hL with h | h | h <;> rw [hk] at h <;> cases h
    · rcases kitchenBlock_kinds hK with h | h | h <;> rw [hk] at h <;> cases h
    · rcases bedroomBlock_kinds hmem with h | h | h <;> rw [hk] at h <;>
        cases h
    · rcases bathroomBlock_kinds hmem with h | h | h <;> rw [hk] at h <;>
        cases h
    · rw [tailBlock_door_eq hT hk]
      refine ⟨rfl, ?_⟩
      simp only [Shape.bounds, startX, hallWidth]
      norm_num
  · intro p hp hLiv
    have hzk : p.kind = .zone ∧ p.owner = some .living := by
      simp only [isLivingZone, hasKind, Bool.and_eq_true,
        decide_eq_true_eq] at hLiv
      exact hLiv
    rcases mem_sceneOf_cases hp with rfl | hL | hK | ⟨k, hkn, hmem⟩ |
      ⟨k, hkb, hmem⟩ | hT
    · simp [outerWallPrim] at hzk
    · rw [livingBlock_zone_eq hL hzk.1]
      simp only [Shape.bounds, livingRect, startY, mainHeight]
      norm_num
    · rw [kitchenBlock_owner hK] at hzk
      simp at hzk
    · rw [bedroomBlock_owner hmem] at hzk
      simp at hzk
    · rw [bathroomBlock_owner hmem] at hzk
      simp at hzk
    · rw [tailBlock_owner hT] at hzk
      simp at hzk

/-- Witness for `c7_door_amended` at 3 bedrooms, 2 bathrooms, area
2000. -/
theorem c7_door_amended_witness :
    1 ≤ 3 ∧ 1 ≤ 2 ∧ (0 : ℝ) < 2000 ∧
      (∃ s, draw 3 2 2000 ("Modern") = .ok s ∧
        s.countP (hasKind .door) = 1 ∧
        (∀ p ∈ s, p.kind = .door →
          p.shape.bounds = ⟨startX + hallWidth 100 - 1, startY, 2, 0.5⟩ ∧
          (p.shape.bounds).x + (p.shape.bounds).w / 2 = startX + 100 / 2) ∧
        (∀ p ∈ s, isLivingZone p = true → startY < (p.shape.bounds).y)) :=
  ⟨by norm_num, by norm_num, by norm_num,
    c7_door_amended 3 2 2000 ("Modern") (by norm_num) (by norm_num)
      (by norm_num)⟩

/-- C8 counterexample: only four windows are emitted (the slice
`[:min(4, 6)]` drops the two front-wall positions), and none of them
touches the front (bottom) edge of the footprint, refuting the claimed
at-least-one-window-per-edge coverage of left, right and front. -/
theorem c8_no_front_window_cex :
    draw 1 1 100 ("Modern") =
      Except.ok (sceneOf 1 1 100 (625 / 9) ("Modern")) ∧
    (sceneOf 1 1 100 (625 / 9) ("Modern")).countP (hasKind .window) = 4 ∧
    ¬ ∃ p ∈ sceneOf 1 1 100 (625 / 9) ("Modern"),
        p.kind = .window ∧ (p.shape.bounds).y ≤ startY := by
  refine ⟨?_, rfl, ?_⟩
  · rw [draw, if_neg (by rintro ⟨h0, h1⟩; omega), footprint_eq_of_pos 100 (by norm_num)]
  · rintro ⟨p, hp, hk, hy⟩
    have hpf : p ∈ (sceneOf 1 1 100 (625 / 9) ("Modern")).filter
        (hasKind .window) :=
      List.mem_filter.mpr ⟨hp, by simp [hasKind, hk]⟩
    have hfe : (sceneOf 1 1 100 (625 / 9) ("Modern")).filter
        (hasKind .window) =
        [⟨.window, none, .rect ⟨startX - 0.2 - 0.3, startY + 15 - 0.3, 0.6, 0.6⟩⟩,
         ⟨.window, none, .rect ⟨startX - 0.2 - 0.3, startY + 35 - 0.3, 0.6, 0.6⟩⟩,
         ⟨.window, none, .rect ⟨startX + 100 + 0.2 - 0.3, startY + 15 - 0.3, 0.6, 0.6⟩⟩,
         ⟨.window, none, .rect ⟨startX + 100 + 0.2 - 0.3, startY + 35 - 0.3, 0.6, 0.6⟩⟩] :=
      rfl
    rw [hfe] at hpf
    simp only [List.mem_cons, List.not_mem_nil, or_false] at hpf
    rcases hpf with rfl | rfl | rfl | rfl <;>
      simp only [Shape.bounds, startX, startY] at hy <;> norm_num at hy

/-- C8 (amended): exactly four window primitives are emitted, at fixed
positions - two on the left wall and two on the right wall, none on the
front wall - independent of the bedroom and bathroom counts and of the
area (the scaled footprint width is always 100). -/
theorem c8_windows_amended (n b : ℕ) (a : ℝ) (st : String)
    (hn : 1 ≤ n) (hb : 1 ≤ b) (ha : 0 < a) :
    ∃ s, draw n b a st = .ok s ∧
      s.filter (hasKind .window) =
        [⟨.window, none, .rect ⟨startX - 0.2 - 0.3, startY + 15 - 0.3, 0.6, 0.6⟩⟩,
         ⟨.window, none, .rect ⟨startX - 0.2 - 0.3, startY + 35 - 0.3, 0.6, 0.6⟩⟩,
         ⟨.window, none, .rect ⟨startX + 100 + 0.2 - 0.3, startY + 15 - 0.3, 0.6, 0.6⟩⟩,
         ⟨.window, none, .rect ⟨startX + 100 + 0.2 - 0.3, startY + 35 - 0.3, 0.6, 0.6⟩⟩] ∧
      s.countP (hasKind .window) = 4 := by
  have hflt : (sceneOf n b 100 (625 / 9) st).filter (hasKind .window) =
      [⟨.window, none, .rect ⟨startX - 0.2 - 0.3, startY + 15 - 0.3, 0.6, 0.6⟩⟩,
       ⟨.window, none, .rect ⟨startX - 0.2 - 0.3, startY + 35 - 0.3, 0.6, 0.6⟩⟩,
       ⟨.window, none, .rect ⟨startX + 100 + 0.2 - 0.3, startY + 15 - 0.3, 0.6, 0.6⟩⟩,
       ⟨.window, none, .rect ⟨startX + 100 + 0.2 - 0.3, startY + 35 - 0.3, 0.6, 0.6⟩⟩] := by
    rw [sceneOf, ← List.singleton_append, List.filter_append,
      List.filter_append, List.filter_append, List.filter_append,
      List.filter_append, livingBlock_filter_window,
      kitchenBlock_filter_window,
      filter_flatMap_range_nil _ _ n
        (fun k => bedroomBlock_filter_window n k 100 (625 / 9)),
      filter_flatMap_range_nil _ _ b
        (fun k => bathroomBlock_filter_window b k 100 (625 / 9)),
      tailBlock_filter_window]
    rfl
  refine ⟨sceneOf n b 100 (625 / 9) st,
    by rw [draw, if_neg (by rintro ⟨h0, h1⟩; omega), footprint_eq_of_pos a ha], hflt, ?_⟩
  rw [List.countP_eq_length_filter, hflt]
  rfl

/-- Witness for `c8_windows_amended` at 3 bedrooms, 2 bathrooms, area
2000. -/
theorem c8_windows_amended_witness :
    1 ≤ 3 ∧ 1 ≤ 2 ∧ (0 : ℝ) < 2000 ∧
      (∃ s, draw 3 2 2000 ("Modern") = .ok s ∧
        s.filter (hasKind .window) =
          [⟨.window, none, .rect ⟨startX - 0.2 - 0.3, startY + 15 - 0.3, 0.6, 0.6⟩⟩,
           ⟨.window, none, .rect ⟨startX - 0.2 - 0.3, startY + 35 - 0.3, 0.6, 0.6⟩⟩,
           ⟨.window, none, .rect ⟨startX + 100 + 0.2 - 0.3, startY + 15 - 0.3, 0.6, 0.6⟩⟩,
           ⟨.window, none, .rect ⟨startX + 100 + 0.2 - 0.3, startY + 35 - 0.3, 0.6, 0.6⟩⟩] ∧
        s.countP (hasKind .window) = 4) :=
  ⟨by norm_num, by norm_num, by norm_num,
    c8_windows_amended 3 2 2000 ("Modern") (by norm_num) (by norm_num)
      (by norm_num)⟩
